import Mathlib

/-! Shallow embedding of the two FastAPI services of this repository:
`Restaurant_Chain/main.py` (menu-only service) and
`Restaurant_Chain_Two_tables/main.py` (menu-plus-orders service).

Decimal currency amounts are modelled as rationals; the Pydantic
`decimal_places=2` constraint becomes the predicate that one hundred
times the amount is an integer.  Python strings are Lean strings;
`str.strip` and the character class of the name regex are modelled
explicitly over the ASCII whitespace set.  Pydantic v2 semantics are
followed: per-field constraints run on the raw submitted value, then
the custom field validator runs on it (its return value, e.g. the
stripped name, is not re-checked); constructing a `FoodItem` from field
values re-runs the whole validation.  A request body is a payload
record with one `Option` per field, so that `exclude_unset=True`
merging can distinguish a field the caller submitted from a default. -/

namespace RestaurantChain

/-- Whitespace stripped by Python `str.strip` and matched by the regex
class `\s` (ASCII range: space, tab, newline, carriage return,
vertical tab, form feed). -/
def pyIsSpace (c : Char) : Bool :=
  c == ' ' || c == '\t' || c == '\n' || c == '\r' || c == '\x0b' || c == '\x0c'

/-- Python `str.strip`: drop leading and trailing whitespace characters. -/
def pyStripList (l : List Char) : List Char :=
  ((l.dropWhile pyIsSpace).reverse.dropWhile pyIsSpace).reverse

/-- Python `str.strip` on strings. -/
def pyStrip (s : String) : String := String.mk (pyStripList s.data)

/-- One character of the class `[a-zA-Z\s]`. -/
def isNameChar (c : Char) : Bool :=
  decide (('a' ≤ c ∧ c ≤ 'z') ∨ ('A' ≤ c ∧ c ≤ 'Z')) || pyIsSpace c

/-- `re.fullmatch` of the pattern `^[a-zA-Z\s]+$`: one or more
characters, each a letter or whitespace. -/
def nameMatches (s : String) : Bool :=
  !s.data.isEmpty && s.data.all isNameChar

/-- The Pydantic `decimal_places=2` constraint: at most two fractional
digits, i.e. the amount is an integer number of hundredths.  For a
normalized rational this is exactly divisibility of the denominator
into 100 (the characterization as `n / 100` is proved below). -/
def decimalPlaces2 (q : ℚ) : Bool := 100 % q.den == 0

/-- Enum `FoodCategory` from both services. -/
inductive FoodCategory where
  | appetizer
  | main_course
  | dessert
  | beverage
  | salad
  deriving DecidableEq

/-- The validated `FoodItemCreate` model: the values held by a
successfully constructed instance. -/
structure FoodItemCreate where
  name : String
  description : String
  category : FoodCategory
  price : ℚ
  is_available : Bool
  preparation_time : Int
  ingredients : List String
  calories : Option Int
  is_vegetarian : Bool
  is_spicy : Bool
  deriving DecidableEq

/-- Computed property `price_category`. -/
def FoodItemCreate.price_category (c : FoodItemCreate) : String :=
  if c.price < 10 then "Budget"
  else if 10 ≤ c.price ∧ c.price ≤ 25 then "Mid-range"
  else "Premium"

/-- Computed property `dietary_info`. -/
def FoodItemCreate.dietary_info (c : FoodItemCreate) : List String :=
  (if c.is_vegetarian then ["Vegetarian"] else []) ++
  (if c.is_spicy then ["Spicy"] else [])

/-- The stored `FoodItem` model: a `FoodItemCreate` plus its id. -/
structure FoodItem extends FoodItemCreate where
  id : Nat
  deriving DecidableEq

/-- A submitted request body for creating or updating a food item:
each field is `some v` when the caller provided it and `none` when it
was absent from the submitted data (Pydantic `fields_set`).  The
`calories` field may be submitted explicitly as null, hence the nested
option. -/
structure FoodItemPayload where
  name : Option String := none
  description : Option String := none
  category : Option FoodCategory := none
  price : Option ℚ := none
  is_available : Option Bool := none
  preparation_time : Option Int := none
  ingredients : Option (List String) := none
  calories : Option (Option Int) := none
  is_vegetarian : Option Bool := none
  is_spicy : Option Bool := none
  deriving DecidableEq

/-- Field-level validation of `name`: `min_length=3, max_length=100`
on the raw value, then `validate_name_characters` (regex check, return
the stripped value). -/
def checkName (raw : String) : Except String String :=
  if raw.length < 3 then .error "name: string should have at least 3 characters"
  else if 100 < raw.length then .error "name: string should have at most 100 characters"
  else if nameMatches raw then .ok (pyStrip raw)
  else .error "Name should only contain letters and spaces"

/-- Field-level validation of `description`: `min_length=10, max_length=500`. -/
def checkDescription (raw : String) : Except String String :=
  if raw.length < 10 then .error "description: string should have at least 10 characters"
  else if 500 < raw.length then .error "description: string should have at most 500 characters"
  else .ok raw

/-- The exact price-band validator message of `validate_price_range`. -/
def priceBandMsg : String := "Price must be between 1.00 and 100.00"

/-- Field-level validation of `price`: `gt=0, decimal_places=2`, then
`validate_price_range` (inclusive band from 1.00 to 100.00). -/
def checkPrice (q : ℚ) : Except String ℚ :=
  if q ≤ 0 then .error "price: input should be greater than 0"
  else if decimalPlaces2 q then
    (if 1 ≤ q ∧ q ≤ 100 then .ok q else .error priceBandMsg)
  else .error "price: decimal input should have no more than 2 decimal places"

/-- Field-level validation of `preparation_time`: `ge=1, le=120`. -/
def checkPreparationTime (v : Int) : Except String Int :=
  if v < 1 then .error "preparation_time: input should be at least 1"
  else if 120 < v then .error "preparation_time: input should be at most 120"
  else .ok v

/-- Field-level validation of `ingredients`: `min_items=1`. -/
def checkIngredients (l : List String) : Except String (List String) :=
  if l.isEmpty then .error "ingredients: list should have at least 1 item"
  else .ok l

/-- Field-level validation of `calories`: optional, `gt=0` when present. -/
def checkCalories : Option Int → Except String (Option Int)
  | none => .ok none
  | some c =>
      if 0 < c then .ok (some c)
      else .error "calories: input should be greater than 0"

/-- A required field (`Field(...)`): error when absent from the payload. -/
def requireField {α : Type} (fname : String) : Option α → Except String α
  | some v => .ok v
  | none => .error (fname ++ ": field required")

/-- Validation performed when a `FoodItemCreate` is constructed from a
submitted payload (the FastAPI request-body boundary): required fields
must be present, optional fields take their declared defaults, and
each field runs its constraints and custom validators in declaration
order. -/
def parseFoodItemCreate (p : FoodItemPayload) : Except String FoodItemCreate :=
  match requireField "name" p.name with
  | .error e => .error e
  | .ok rawName =>
  match checkName rawName with
  | .error e => .error e
  | .ok name =>
  match requireField "description" p.description with
  | .error e => .error e
  | .ok rawDescription =>
  match checkDescription rawDescription with
  | .error e => .error e
  | .ok description =>
  match requireField "category" p.category with
  | .error e => .error e
  | .ok category =>
  match requireField "price" p.price with
  | .error e => .error e
  | .ok rawPrice =>
  match checkPrice rawPrice with
  | .error e => .error e
  | .ok price =>
  match requireField "preparation_time" p.preparation_time with
  | .error e => .error e
  | .ok rawPrep =>
  match checkPreparationTime rawPrep with
  | .error e => .error e
  | .ok preparation_time =>
  match requireField "ingredients" p.ingredients with
  | .error e => .error e
  | .ok rawIngredients =>
  match checkIngredients rawIngredients with
  | .error e => .error e
  | .ok ingredients =>
  match checkCalories (p.calories.getD none) with
  | .error e => .error e
  | .ok calories =>
    .ok { name := name
          description := description
          category := category
          price := price
          is_available := p.is_available.getD true
          preparation_time := preparation_time
          ingredients := ingredients
          calories := calories
          is_vegetarian := p.is_vegetarian.getD false
          is_spicy := p.is_spicy.getD false }

/-- Validation performed when a `FoodItem` is constructed from concrete
field values (`FoodItem(id=..., **data)`): every field constraint and
custom validator runs again on the given values. -/
def revalidate (c : FoodItemCreate) : Except String FoodItemCreate :=
  match checkName c.name with
  | .error e => .error e
  | .ok name =>
  match checkDescription c.description with
  | .error e => .error e
  | .ok description =>
  match checkPrice c.price with
  | .error e => .error e
  | .ok price =>
  match checkPreparationTime c.preparation_time with
  | .error e => .error e
  | .ok preparation_time =>
  match checkIngredients c.ingredients with
  | .error e => .error e
  | .ok ingredients =>
  match checkCalories c.calories with
  | .error e => .error e
  | .ok calories =>
    .ok { c with
          name := name
          description := description
          price := price
          preparation_time := preparation_time
          ingredients := ingredients
          calories := calories }

/-! ### The in-memory stores

Python dicts keyed by ids, preserving insertion order: association
lists with unique keys.  Assignment to an existing key replaces the
entry in place; assignment to a fresh key appends. -/

/-- Membership test of a key, as `item_id in db`. -/
def dbMem {α : Type} (db : List (Nat × α)) (k : Nat) : Bool :=
  db.any (fun e => e.1 == k)

/-- Lookup `db[k]`. -/
def dbLookup {α : Type} (db : List (Nat × α)) (k : Nat) : Option α :=
  match db.find? (fun e => e.1 == k) with
  | some e => some e.2
  | none => none

/-- Assignment `db[k] = v`. -/
def dbInsert {α : Type} (db : List (Nat × α)) (k : Nat) (v : α) : List (Nat × α) :=
  if dbMem db k then db.map (fun e => if e.1 == k then (k, v) else e)
  else db ++ [(k, v)]

/-- Deletion `del db[k]`. -/
def dbErase {α : Type} (db : List (Nat × α)) (k : Nat) : List (Nat × α) :=
  db.filter (fun e => !(e.1 == k))

/-- State of the menu-only service: `menu_db` and `last_item_id`
(initially 0, incremented before use, so the first item gets id 1). -/
structure MenuState where
  menu_db : List (Nat × FoodItem)
  last_item_id : Nat
  deriving DecidableEq

/-- State of the menu part of the order service: `menu_db` and
`next_menu_id` (initially 1, used then incremented). -/
structure MenuState2 where
  menu_db : List (Nat × FoodItem)
  next_menu_id : Nat
  deriving DecidableEq

/-- Outcome of a menu route, as seen by the HTTP client. -/
inductive MenuResponse where
  | ok (item : FoodItem)
  | okList (items : List FoodItem)
  | deleted
  | notFound (detail : String)
  | validationError (detail : String)
  | serverError (detail : String)
  deriving DecidableEq

/-- Whether a menu response is a successful single-item response. -/
def MenuResponse.isItem : MenuResponse → Bool
  | .ok _ => true
  | _ => false

/-- The string value of a category, for the by-category error message. -/
def FoodCategory.value : FoodCategory → String
  | .appetizer => "appetizer"
  | .main_course => "main_course"
  | .dessert => "dessert"
  | .beverage => "beverage"
  | .salad => "salad"

/-! ### Menu-only service operations (`Restaurant_Chain/main.py`) -/

/-- `add_item_to_db` of the menu-only service: the counter is
incremented first; constructing the `FoodItem` re-validates, and a
re-validation failure escapes after the increment, leaving the counter
bumped but the mapping unchanged. -/
def add_item_to_db (s : MenuState) (c : FoodItemCreate) :
    MenuState × Except String FoodItem :=
  let newId := s.last_item_id + 1
  match revalidate c with
  | .ok c2 =>
      ({ menu_db := dbInsert s.menu_db newId ⟨c2, newId⟩, last_item_id := newId },
       .ok ⟨c2, newId⟩)
  | .error e => ({ s with last_item_id := newId }, .error e)

/-- GET `/menu`. -/
def get_all_menu_items (s : MenuState) : MenuResponse :=
  .okList (s.menu_db.map (fun e => e.2))

/-- GET `/menu/{item_id}`. -/
def get_menu_item (s : MenuState) (id : Nat) : MenuResponse :=
  match dbLookup s.menu_db id with
  | some it => .ok it
  | none => .notFound "Food item not found"

/-- POST `/menu`: the body is validated into a `FoodItemCreate` (422 on
failure), then `add_item_to_db` runs; a re-validation error inside it
is an uncaught `ValidationError`, surfaced as a server error. -/
def add_menu_item (s : MenuState) (p : FoodItemPayload) : MenuState × MenuResponse :=
  match parseFoodItemCreate p with
  | .error e => (s, .validationError e)
  | .ok c =>
      match add_item_to_db s c with
      | (s2, .ok it) => (s2, .ok it)
      | (s2, .error e) => (s2, .serverError e)

/-- The detail of the Python `TypeError` raised by
`FoodItem(id=item_id, **existing_item_data)`: `existing_item_data`
comes from `menu_db[item_id].dict()` and therefore already contains the
key `id`, so the call passes `id` twice. -/
def duplicateIdTypeError : String :=
  "TypeError: got multiple values for keyword argument id"

/-- The body of `update_menu_item` once the request body has parsed:
absent id gives 404; for a present id the handler merges and then
evaluates `FoodItem(id=item_id, **existing_item_data)`, which raises
`TypeError` (the dumped data already holds `id`) before any validation
runs; `except ValueError` does not catch it, so the request fails with
an uncaught server error and the store is never mutated. -/
def update_menu_item_handler (s : MenuState) (id : Nat) : MenuState × MenuResponse :=
  match dbLookup s.menu_db id with
  | none => (s, .notFound "Food item not found")
  | some _ => (s, .serverError duplicateIdTypeError)

/-- PUT `/menu/{item_id}`: body validation first (422 on failure, no
handler call), then the handler. -/
def update_menu_item (s : MenuState) (id : Nat) (p : FoodItemPayload) :
    MenuState × MenuResponse :=
  match parseFoodItemCreate p with
  | .error e => (s, .validationError e)
  | .ok _ => update_menu_item_handler s id

/-- DELETE `/menu/{item_id}`. -/
def delete_menu_item (s : MenuState) (id : Nat) : MenuState × MenuResponse :=
  if dbMem s.menu_db id then
    ({ s with menu_db := dbErase s.menu_db id }, .deleted)
  else (s, .notFound "Food item not found")

/-- GET `/menu/category/{category}`. -/
def get_items_by_category (s : MenuState) (cat : FoodCategory) : MenuResponse :=
  let filtered := (s.menu_db.map (fun e => e.2)).filter
    (fun it => decide (it.category = cat))
  if filtered.isEmpty then
    .notFound ("No items found in category " ++ cat.value)
  else .okList filtered

/-! ### Menu operations of the order service
(`Restaurant_Chain_Two_tables/main.py`): textually identical handlers,
except that `add_food_item_to_db` uses `next_menu_id` and increments it
only after the `FoodItem` has been constructed successfully. -/

/-- `add_food_item_to_db` of the order service: construct first (a
re-validation failure escapes before the counter moves), then store and
increment. -/
def add_food_item_to_db (s : MenuState2) (c : FoodItemCreate) :
    MenuState2 × Except String FoodItem :=
  match revalidate c with
  | .ok c2 =>
      ({ menu_db := dbInsert s.menu_db s.next_menu_id ⟨c2, s.next_menu_id⟩
         next_menu_id := s.next_menu_id + 1 },
       .ok ⟨c2, s.next_menu_id⟩)
  | .error e => (s, .error e)

/-- POST `/menu` of the order service. -/
def add_menu_item2 (s : MenuState2) (p : FoodItemPayload) : MenuState2 × MenuResponse :=
  match parseFoodItemCreate p with
  | .error e => (s, .validationError e)
  | .ok c =>
      match add_food_item_to_db s c with
      | (s2, .ok it) => (s2, .ok it)
      | (s2, .error e) => (s2, .serverError e)

/-- GET `/menu` of the order service. -/
def get_all_menu_items2 (s : MenuState2) : MenuResponse :=
  .okList (s.menu_db.map (fun e => e.2))

/-- GET `/menu/{item_id}` of the order service. -/
def get_menu_item2 (s : MenuState2) (id : Nat) : MenuResponse :=
  match dbLookup s.menu_db id with
  | some it => .ok it
  | none => .notFound "Food item not found"

/-- PUT `/menu/{item_id}` of the order service (same handler text, same
duplicate-id `TypeError`). -/
def update_menu_item2 (s : MenuState2) (id : Nat) (p : FoodItemPayload) :
    MenuState2 × MenuResponse :=
  match parseFoodItemCreate p with
  | .error e => (s, .validationError e)
  | .ok _ =>
      match dbLookup s.menu_db id with
      | none => (s, .notFound "Food item not found")
      | some _ => (s, .serverError duplicateIdTypeError)

/-- DELETE `/menu/{item_id}` of the order service. -/
def delete_menu_item2 (s : MenuState2) (id : Nat) : MenuState2 × MenuResponse :=
  if dbMem s.menu_db id then
    ({ s with menu_db := dbErase s.menu_db id }, .deleted)
  else (s, .notFound "Food item not found")

/-- GET `/menu/category/{category}` of the order service. -/
def get_items_by_category2 (s : MenuState2) (cat : FoodCategory) : MenuResponse :=
  let filtered := (s.menu_db.map (fun e => e.2)).filter
    (fun it => decide (it.category = cat))
  if filtered.isEmpty then
    .notFound ("No items found in category " ++ cat.value)
  else .okList filtered

/-! ### Request sequences over the shared menu CRUD surface -/

/-- One request against the menu CRUD surface (common to both services). -/
inductive MenuRequest where
  | listAll
  | get (id : Nat)
  | create (p : FoodItemPayload)
  | update (id : Nat) (p : FoodItemPayload)
  | delete (id : Nat)
  | byCategory (c : FoodCategory)

/-- Dispatch one request in the menu-only service. -/
def menuStep (s : MenuState) : MenuRequest → MenuState × MenuResponse
  | .listAll => (s, get_all_menu_items s)
  | .get id => (s, get_menu_item s id)
  | .create p => add_menu_item s p
  | .update id p => update_menu_item s id p
  | .delete id => delete_menu_item s id
  | .byCategory c => (s, get_items_by_category s c)

/-- Dispatch one request in the order service. -/
def menuStep2 (s : MenuState2) : MenuRequest → MenuState2 × MenuResponse
  | .listAll => (s, get_all_menu_items2 s)
  | .get id => (s, get_menu_item2 s id)
  | .create p => add_menu_item2 s p
  | .update id p => update_menu_item2 s id p
  | .delete id => delete_menu_item2 s id
  | .byCategory c => (s, get_items_by_category2 s c)

/-- Run a request sequence in the menu-only service, collecting responses. -/
def menuRun (s : MenuState) : List MenuRequest → MenuState × List MenuResponse
  | [] => (s, [])
  | r :: rs =>
      ((menuRun (menuStep s r).1 rs).1,
       (menuStep s r).2 :: (menuRun (menuStep s r).1 rs).2)

/-- Run a request sequence in the order service. -/
def menuRun2 (s : MenuState2) : List MenuRequest → MenuState2 × List MenuResponse
  | [] => (s, [])
  | r :: rs =>
      ((menuRun2 (menuStep2 s r).1 rs).1,
       (menuStep2 s r).2 :: (menuRun2 (menuStep2 s r).1 rs).2)

/-- The id assigned by a request, when it is a successful creation. -/
def createMarker : MenuRequest → MenuResponse → List Nat
  | .create _, .ok it => [it.id]
  | _, _ => []

/-- Ids assigned by the successful creations of a run, in order
(menu-only service). -/
def createdIds (s : MenuState) : List MenuRequest → List Nat
  | [] => []
  | r :: rs => createMarker r (menuStep s r).2 ++ createdIds (menuStep s r).1 rs

/-- Ids assigned by the successful creations of a run, in order
(order service). -/
def createdIds2 (s : MenuState2) : List MenuRequest → List Nat
  | [] => []
  | r :: rs => createMarker r (menuStep2 s r).2 ++ createdIds2 (menuStep2 s r).1 rs

/-! ### Order domain model (`Restaurant_Chain_Two_tables/main.py`) -/

/-- Enum `OrderStatus`. -/
inductive OrderStatus where
  | pending
  | confirmed
  | ready
  | delivered
  deriving DecidableEq

/-- Nested `Customer` model (values held by a validated instance). -/
structure Customer where
  name : String
  phone : String
  address : String
  deriving DecidableEq

/-- Nested `OrderItem` model (one order line). -/
structure OrderItem where
  menu_item_id : Int
  menu_item_name : String
  quantity : Int
  unit_price : ℚ
  deriving DecidableEq

/-- Computed property `item_total`. -/
def OrderItem.item_total (it : OrderItem) : ℚ :=
  (it.quantity : ℚ) * it.unit_price

/-- `OrderCreate`: a customer and a list of order lines. -/
structure OrderCreate where
  customer : Customer
  items : List OrderItem
  deriving DecidableEq

/-- A stored `Order`: an `OrderCreate` plus id and status. -/
structure Order extends OrderCreate where
  id : Nat
  status : OrderStatus
  deriving DecidableEq

/-- Computed property `total_amount`. -/
def Order.total_amount (o : Order) : ℚ :=
  (o.items.map OrderItem.item_total).sum

/-- Computed property `total_amount_with_delivery` (fixed fee 2.99). -/
def Order.total_amount_with_delivery (o : Order) : ℚ :=
  o.total_amount + mkRat 299 100

/-- Computed property `total_items_count`. -/
def Order.total_items_count (o : Order) : Nat :=
  o.items.length

/-- Computed property `total_quantity`. -/
def Order.total_quantity (o : Order) : Int :=
  (o.items.map OrderItem.quantity).sum

/-- Validation of a `Customer`: name 2 to 50 characters, phone matching
the pattern of exactly 10 digits, address at least 5 characters. -/
def validateCustomer (c : Customer) : Except String Customer :=
  if c.name.length < 2 then .error "customer name: string should have at least 2 characters"
  else if 50 < c.name.length then .error "customer name: string should have at most 50 characters"
  else if c.phone.length == 10 && c.phone.data.all Char.isDigit then
    (if c.address.length < 5 then .error "customer address: string should have at least 5 characters"
     else .ok c)
  else .error "customer phone: string should match pattern of 10 digits"

/-- Validation of an `OrderItem`: positive menu reference, name 1 to
100 characters, quantity 1 to 10, unit price positive with at most two
decimal places.  No check against the menu mapping is performed. -/
def validateOrderItem (it : OrderItem) : Except String OrderItem :=
  if it.menu_item_id ≤ 0 then .error "menu_item_id: input should be greater than 0"
  else if it.menu_item_name.length < 1 then .error "menu_item_name: string should have at least 1 character"
  else if 100 < it.menu_item_name.length then .error "menu_item_name: string should have at most 100 characters"
  else if it.quantity ≤ 0 then .error "quantity: input should be greater than 0"
  else if 10 < it.quantity then .error "quantity: input should be at most 10"
  else if it.unit_price ≤ 0 then .error "unit_price: input should be greater than 0"
  else if decimalPlaces2 it.unit_price then .ok it
  else .error "unit_price: decimal input should have no more than 2 decimal places"

/-- Validation of each order line in turn. -/
def validateItems : List OrderItem → Except String (List OrderItem)
  | [] => .ok []
  | it :: rest =>
      match validateOrderItem it with
      | .error e => .error e
      | .ok v =>
          match validateItems rest with
          | .error e => .error e
          | .ok vs => .ok (v :: vs)

/-- Validation performed when an `OrderCreate` (or the order part of an
`Order`) is constructed: the nested customer, then the items list
(`min_items=1`) and each line. -/
def parseOrderCreate (oc : OrderCreate) : Except String OrderCreate :=
  match validateCustomer oc.customer with
  | .error e => .error e
  | .ok c =>
      if oc.items.isEmpty then .error "items: list should have at least 1 item"
      else
        match validateItems oc.items with
        | .error e => .error e
        | .ok its => .ok { customer := c, items := its }

/-- Full state of the order service: the shared menu state plus the
orders mapping and its independent id counter (initially 1). -/
structure OrderServiceState where
  menu : MenuState2
  orders_db : List (Nat × Order)
  next_order_id : Nat
  deriving DecidableEq

/-- The handler of POST `/orders` once the body has parsed: constructing
the `Order` re-validates the nested models (which succeeds on
already-validated data), the order is stored as pending under
`next_order_id`, and the counter advances.  The menu mapping is never
consulted. -/
def create_order (s : OrderServiceState) (oc : OrderCreate) :
    OrderServiceState × Except String Order :=
  match parseOrderCreate oc with
  | .error e => (s, .error e)
  | .ok oc2 =>
      ({ s with
         orders_db := dbInsert s.orders_db s.next_order_id ⟨oc2, s.next_order_id, .pending⟩
         next_order_id := s.next_order_id + 1 },
       .ok ⟨oc2, s.next_order_id, .pending⟩)

/-- POST `/orders`: body validation (422 on failure, handler not
invoked), then the handler. -/
def create_order_endpoint (s : OrderServiceState) (raw : OrderCreate) :
    OrderServiceState × Except String Order :=
  match parseOrderCreate raw with
  | .error e => (s, .error e)
  | .ok oc => create_order s oc

/-! ### Literal data from the source: startup seeds and the payloads of
the demonstration endpoints -/

/-- Seed payload: Margherita Pizza. -/
def margheritaPayload : FoodItemPayload :=
  { name := some "Margherita Pizza"
    description := some "Classic Pizza with tomato sauce, mozzarella cheese, and fresh basil"
    category := some FoodCategory.main_course
    price := some (mkRat 1599 100)
    preparation_time := some 20
    ingredients := some ["pizza dough", "tomato sauce", "mozzarella", "basil", "olive oil"]
    calories := some (some 650)
    is_vegetarian := some true
    is_spicy := some false }

/-- The validated `FoodItemCreate` produced by the Margherita payload. -/
def margheritaCreate : FoodItemCreate :=
  { name := "Margherita Pizza"
    description := "Classic Pizza with tomato sauce, mozzarella cheese, and fresh basil"
    category := FoodCategory.main_course
    price := mkRat 1599 100
    is_available := true
    preparation_time := 20
    ingredients := ["pizza dough", "tomato sauce", "mozzarella", "basil", "olive oil"]
    calories := some 650
    is_vegetarian := true
    is_spicy := false }

/-- Seed payload: Spicy Chicken Wings. -/
def spicyWingsPayload : FoodItemPayload :=
  { name := some "Spicy Chicken Wings"
    description := some "Crispy chicken wings tossed in our signature hot sauce"
    category := some FoodCategory.appetizer
    price := some (mkRat 1250 100)
    preparation_time := some 15
    ingredients := some ["chicken wings", "hot sauce", "butter", "celery salt"]
    calories := some (some 420)
    is_vegetarian := some false
    is_spicy := some true }

/-- Seed payload: Caesar Salad. -/
def caesarSaladPayload : FoodItemPayload :=
  { name := some "Caesar Salad"
    description := some "Fresh romaine lettuce, croutons, parmesan cheese, and Caesar dressing"
    category := some FoodCategory.salad
    price := some (mkRat 875 100)
    preparation_time := some 10
    ingredients := some ["romaine lettuce", "croutons", "parmesan cheese", "Caesar dressing"]
    calories := some (some 300)
    is_vegetarian := some true
    is_spicy := some false }

/-- Seed payload: Chocolate Lava Cake. -/
def lavaCakePayload : FoodItemPayload :=
  { name := some "Chocolate Lava Cake"
    description := some "Warm chocolate cake with a molten chocolate center, served with vanilla ice cream"
    category := some FoodCategory.dessert
    price := some (mkRat 799 100)
    preparation_time := some 25
    ingredients := some ["chocolate", "flour", "sugar", "eggs", "butter", "ice cream"]
    calories := some (some 750)
    is_vegetarian := some true
    is_spicy := some false }

/-- Seed payload: Orange Juice. -/
def orangeJuicePayload : FoodItemPayload :=
  { name := some "Orange Juice"
    description := some "Freshly squeezed orange juice"
    category := some FoodCategory.beverage
    price := some (mkRat 350 100)
    preparation_time := some 5
    ingredients := some ["oranges"]
    calories := some (some 120)
    is_vegetarian := some true
    is_spicy := some false }

/-- Seed payload of the order service only: Seasonal Soup, unavailable. -/
def seasonalSoupPayload : FoodItemPayload :=
  { name := some "Seasonal Soup"
    description := some "Hearty soup available only in winter"
    category := some FoodCategory.appetizer
    price := some (mkRat 600 100)
    preparation_time := some 10
    ingredients := some ["vegetables", "broth"]
    is_available := some false
    calories := some (some 250)
    is_vegetarian := some true
    is_spicy := some false }

/-- The five seed payloads of the menu-only service, in insertion order. -/
def seedPayloads1 : List FoodItemPayload :=
  [margheritaPayload, spicyWingsPayload, caesarSaladPayload,
   lavaCakePayload, orangeJuicePayload]

/-- The six seed payloads of the order service, in insertion order. -/
def seedPayloads2 : List FoodItemPayload :=
  seedPayloads1 ++ [seasonalSoupPayload]

/-- The menu-only service state right after startup seeding. -/
def seedState1 : MenuState :=
  (menuRun ⟨[], 0⟩ (seedPayloads1.map MenuRequest.create)).1

/-- The order-service menu state right after startup seeding. -/
def seedState2 : MenuState2 :=
  (menuRun2 ⟨[], 1⟩ (seedPayloads2.map MenuRequest.create)).1

/-- A one-item store holding the Margherita item under id 1, used as a
concrete stored state in witnesses and counterexamples. -/
def exState : MenuState := ⟨[(1, ⟨margheritaCreate, 1⟩)], 1⟩

/-- An update request body that submits only the `price` field. -/
def priceOnlyPayload (q : ℚ) : FoodItemPayload := { price := some q }

/-- The "Tiny Snack" payload of the invalid-price demonstration, with a
parametric price. -/
def tinySnackPayload (q : ℚ) : FoodItemPayload :=
  { name := some "Tiny Snack"
    description := some "A very tiny snack for a very tiny price"
    category := some FoodCategory.appetizer
    price := some q
    preparation_time := some 5
    ingredients := some ["bread", "butter"] }

/-- The validated record of an accepted Tiny Snack payload. -/
def tinySnackCreate (q : ℚ) : FoodItemCreate :=
  { name := "Tiny Snack"
    description := "A very tiny snack for a very tiny price"
    category := FoodCategory.appetizer
    price := q
    is_available := true
    preparation_time := 5
    ingredients := ["bread", "butter"]
    calories := none
    is_vegetarian := false
    is_spicy := false }

/-- A creation payload whose raw name is within the 3 to 100 character
bounds and matches the letters-and-whitespace regex, but trims to fewer
than 3 characters, so the `FoodItemCreate` is accepted while the
`FoodItem` reconstruction inside the create helper fails. -/
def badNamePayload : FoodItemPayload :=
  { name := some "  ab  "
    description := some "A dish whose name trims too short"
    category := some FoodCategory.main_course
    price := some 10
    preparation_time := some 10
    ingredients := some ["stuff"] }

/-- Demonstration payload: a beverage marked spicy (Spicy Lemonade). -/
def spicyLemonadePayload : FoodItemPayload :=
  { name := some "Spicy Lemonade"
    description := some "Lemonade with a kick!"
    category := some FoodCategory.beverage
    price := some (mkRat 400 100)
    preparation_time := some 5
    ingredients := some ["lemon", "sugar", "water", "chili"]
    is_spicy := some true }

/-- Demonstration payload: a vegetarian item with calories 850. -/
def highCalVegPayload : FoodItemPayload :=
  { name := some "Giant Veggie Burger"
    description := some "A huge burger for vegetarians"
    category := some FoodCategory.main_course
    price := some (mkRat 1800 100)
    preparation_time := some 30
    ingredients := some ["patty", "bun", "lettuce"]
    calories := some (some 850)
    is_vegetarian := some true }

/-- Demonstration payload: a beverage with preparation time 12. -/
def longPrepBeveragePayload : FoodItemPayload :=
  { name := some "Slow Brew Coffee"
    description := some "Coffee that takes a long time to make"
    category := some FoodCategory.beverage
    price := some (mkRat 500 100)
    preparation_time := some 12
    ingredients := some ["coffee beans", "water"] }

/-- Demonstration order: a line referencing menu id 999, which exists in
no seeded menu. -/
def invalidMenuIdOrder : OrderCreate :=
  { customer := { name := "Eve Adams", phone := "5553334444", address := "789 Fake Street" }
    items := [{ menu_item_id := 999, menu_item_name := "Non Existent",
                quantity := 1, unit_price := 10 }] }

/-- Demonstration order: a line whose unit price (10.00) differs from
the menu price of Margherita Pizza (15.99). -/
def priceMismatchOrder : OrderCreate :=
  { customer := { name := "Frank Green", phone := "5555556666", address := "888 Discount Lane" }
    items := [{ menu_item_id := 1, menu_item_name := "Margherita Pizza",
                quantity := 1, unit_price := 10 }] }

/-- Demonstration order: a line for the unavailable Seasonal Soup. -/
def unavailableItemOrder : OrderCreate :=
  { customer := { name := "Grace Hopper", phone := "1234567890", address := "Code Alley" }
    items := [{ menu_item_id := 6, menu_item_name := "Seasonal Soup",
                quantity := 1, unit_price := 6 }] }

/-- The per-scenario status computed by the demonstration endpoints for
a `FoodItemCreate` construction that is expected to fail: FAIL when the
construction succeeds, PASS when it raises. -/
def foodScenarioStatus (p : FoodItemPayload) : String :=
  match parseFoodItemCreate p with
  | .ok _ => "FAIL"
  | .error _ => "PASS"

/-- The per-scenario status computed by `run_order_test_cases` for an
order creation that is expected to fail: `create_order` raises no
exception, so the status is FAIL exactly when the `OrderCreate`
construction succeeds. -/
def orderScenarioStatus (oc : OrderCreate) : String :=
  match parseOrderCreate oc with
  | .ok _ => "FAIL"
  | .error _ => "PASS"

/-- The valid demonstration order of `run_order_test_cases`, whose
computed totals the source itself asserts. -/
def aliceOrder : Order :=
  { customer := { name := "Alice Smith", phone := "5551234567", address := "123 Oak Street, Springfield" }
    items := [{ menu_item_id := 1, menu_item_name := "Margherita Pizza",
                quantity := 1, unit_price := mkRat 1599 100 },
              { menu_item_id := 2, menu_item_name := "Spicy Chicken Wings",
                quantity := 2, unit_price := mkRat 1250 100 }]
    id := 1
    status := OrderStatus.pending }

/-- The order service state at startup, before any order is created:
empty menu, empty orders, both counters at 1. -/
def emptyOrderService : OrderServiceState := ⟨⟨[], 1⟩, [], 1⟩

/-- A demonstration request sequence on which the two services agree. -/
def c9SafeReqs : List MenuRequest :=
  [MenuRequest.create margheritaPayload, MenuRequest.delete 1,
   MenuRequest.create margheritaPayload]

/-- A demonstration request sequence interleaving creation and deletion. -/
def c10Reqs : List MenuRequest :=
  [MenuRequest.create margheritaPayload, MenuRequest.delete 1,
   MenuRequest.create spicyWingsPayload]

/-- An item as stored: constructing it again from its own field values
succeeds and returns the same values. -/
def ItemValid (it : FoodItem) : Prop :=
  revalidate it.toFoodItemCreate = .ok it.toFoodItemCreate

/-- Every item of a menu mapping is valid as stored. -/
def MenuInv (db : List (Nat × FoodItem)) : Prop :=
  ∀ e ∈ db, ItemValid e.2

/-- A request on which the two services cannot diverge: any create
payload that parses must also survive the `FoodItem` reconstruction
inside the create helper (equivalently, its validated name does not
trim below 3 characters). -/
def reqSafe : MenuRequest → Prop
  | .create p => ∀ c, parseFoodItemCreate p = .ok c → ∃ c2, revalidate c = .ok c2
  | _ => True

/-! ### Helper lemmas: stripping, field checkers, validation -/

theorem dropWhile_head?_false {p : Char → Bool} {l : List Char} {c : Char}
    (h : (l.dropWhile p).head? = some c) : p c = false := by
  have hx := List.head?_dropWhile_not p l
  rw [h] at hx
  exact hx

theorem dropWhile_eq_self_of_head {p : Char → Bool} {l : List Char}
    (h : ∀ c, l.head? = some c → p c = false) : l.dropWhile p = l := by
  cases l with
  | nil => rfl
  | cons a t =>
      rw [List.dropWhile_cons_of_neg]
      simp [h a rfl]

theorem getLast?_dropWhile_ne_nil {p : Char → Bool} {l : List Char}
    (h : l.dropWhile p ≠ []) : (l.dropWhile p).getLast? = l.getLast? := by
  have hx := List.getLast?_append_of_ne_nil (l.takeWhile p) h
  rw [List.takeWhile_append_dropWhile] at hx
  exact hx.symm

theorem pyStripList_head {l : List Char} {c : Char}
    (h : (pyStripList l).head? = some c) : pyIsSpace c = false := by
  unfold pyStripList at h
  rw [List.head?_reverse] at h
  by_cases hb : ((l.dropWhile pyIsSpace).reverse.dropWhile pyIsSpace) = []
  · rw [hb] at h; cases h
  · rw [getLast?_dropWhile_ne_nil hb, List.getLast?_reverse] at h
    exact dropWhile_head?_false h

theorem pyStripList_idem (l : List Char) : pyStripList (pyStripList l) = pyStripList l := by
  have h1 : (pyStripList l).dropWhile pyIsSpace = pyStripList l :=
    dropWhile_eq_self_of_head (fun c hc => pyStripList_head hc)
  show ((((pyStripList l).dropWhile pyIsSpace).reverse).dropWhile pyIsSpace).reverse
      = pyStripList l
  rw [h1]
  unfold pyStripList
  rw [List.reverse_reverse]
  have h2 : ((l.dropWhile pyIsSpace).reverse.dropWhile pyIsSpace).dropWhile pyIsSpace
      = (l.dropWhile pyIsSpace).reverse.dropWhile pyIsSpace :=
    dropWhile_eq_self_of_head (fun c hc => dropWhile_head?_false hc)
  rw [h2]

theorem pyStrip_idem (s : String) : pyStrip (pyStrip s) = pyStrip s := by
  show String.mk (pyStripList (pyStripList s.data)) = String.mk (pyStripList s.data)
  rw [pyStripList_idem]

theorem checkName_ok {raw m : String} (h : checkName raw = .ok m) :
    3 ≤ raw.length ∧ raw.length ≤ 100 ∧ nameMatches raw = true ∧ m = pyStrip raw := by
  unfold checkName at h
  split_ifs at h with h1 h2 h3 <;>
    first
      | exact ⟨by omega, by omega, h3, (Except.ok.inj h).symm⟩
      | cases h

theorem checkDescription_ok {raw m : String} (h : checkDescription raw = .ok m) :
    10 ≤ raw.length ∧ raw.length ≤ 500 ∧ m = raw := by
  unfold checkDescription at h
  split_ifs at h with h1 h2 <;>
    first
      | exact ⟨by omega, by omega, (Except.ok.inj h).symm⟩
      | cases h

theorem checkPrice_ok {q m : ℚ} (h : checkPrice q = .ok m) :
    0 < q ∧ decimalPlaces2 q = true ∧ 1 ≤ q ∧ q ≤ 100 ∧ m = q := by
  unfold checkPrice at h
  split_ifs at h with h1 h2 h3 <;>
    first
      | exact ⟨not_le.mp h1, h2, h3.1, h3.2, (Except.ok.inj h).symm⟩
      | cases h

theorem checkPreparationTime_ok {v m : Int} (h : checkPreparationTime v = .ok m) :
    1 ≤ v ∧ v ≤ 120 ∧ m = v := by
  unfold checkPreparationTime at h
  split_ifs at h with h1 h2 <;>
    first
      | exact ⟨by omega, by omega, (Except.ok.inj h).symm⟩
      | cases h

theorem checkIngredients_ok {l m : List String} (h : checkIngredients l = .ok m) :
    l.isEmpty = false ∧ m = l := by
  unfold checkIngredients at h
  split_ifs at h with h1 <;>
    first
      | exact ⟨by simpa using h1, (Except.ok.inj h).symm⟩
      | cases h

theorem checkCalories_ok {o m : Option Int} (h : checkCalories o = .ok m) :
    (∀ k, o = some k → 0 < k) ∧ m = o := by
  cases o with
  | none =>
      simp only [checkCalories] at h
      exact ⟨fun k hk => (by cases hk), (Except.ok.inj h).symm⟩
  | some v =>
      simp only [checkCalories] at h
      split_ifs at h with h1
      exact ⟨fun k hk => (Option.some.inj hk) ▸ h1, (Except.ok.inj h).symm⟩

theorem requireField_ok {α : Type} {f : String} {o : Option α} {v : α}
    (h : requireField f o = .ok v) : o = some v := by
  cases o with
  | none => simp [requireField] at h
  | some a =>
      simp only [requireField] at h
      rw [Except.ok.inj h]

theorem revalidate_ok {c c2 : FoodItemCreate} (h : revalidate c = .ok c2) :
    c2 = { c with name := pyStrip c.name } ∧
    3 ≤ c.name.length ∧ c.name.length ≤ 100 ∧ nameMatches c.name = true ∧
    10 ≤ c.description.length ∧ c.description.length ≤ 500 ∧
    0 < c.price ∧ decimalPlaces2 c.price = true ∧ 1 ≤ c.price ∧ c.price ≤ 100 ∧
    1 ≤ c.preparation_time ∧ c.preparation_time ≤ 120 ∧
    c.ingredients.isEmpty = false ∧
    (∀ k, c.calories = some k → 0 < k) := by
  unfold revalidate at h
  split at h
  · cases h
  rename_i n hn
  split at h
  · cases h
  rename_i d hd
  split at h
  · cases h
  rename_i q hq
  split at h
  · cases h
  rename_i t ht
  split at h
  · cases h
  rename_i ing hing
  split at h
  · cases h
  rename_i cal hcal
  obtain ⟨hn1, hn2, hn3, hn4⟩ := checkName_ok hn
  obtain ⟨hd1, hd2, hd3⟩ := checkDescription_ok hd
  obtain ⟨hq1, hq2, hq3, hq4, hq5⟩ := checkPrice_ok hq
  obtain ⟨ht1, ht2, ht3⟩ := checkPreparationTime_ok ht
  obtain ⟨hi1, hi2⟩ := checkIngredients_ok hing
  obtain ⟨hc1, hc2⟩ := checkCalories_ok hcal
  subst hn4 hd3 hq5 ht3 hi2 hc2
  refine ⟨?_, hn1, hn2, hn3, hd1, hd2, hq1, hq2, hq3, hq4, ht1, ht2, hi1, hc1⟩
  exact (Except.ok.inj h).symm

theorem revalidate_ok_eq {c c2 : FoodItemCreate}
    (hs : pyStrip c.name = c.name) (h : revalidate c = .ok c2) : c2 = c := by
  have h1 := (revalidate_ok h).1
  rw [hs] at h1
  exact h1

theorem parseFoodItemCreate_ok {p : FoodItemPayload} {c : FoodItemCreate}
    (h : parseFoodItemCreate p = .ok c) :
    (∃ raw, p.name = some raw ∧ 3 ≤ raw.length ∧ raw.length ≤ 100 ∧
      nameMatches raw = true ∧ c.name = pyStrip raw) ∧
    p.price = some c.price ∧
    0 < c.price ∧ decimalPlaces2 c.price = true ∧ 1 ≤ c.price ∧ c.price ≤ 100 := by
  unfold parseFoodItemCreate at h
  split at h
  · cases h
  rename_i rawName hrn
  split at h
  · cases h
  rename_i n hn
  split at h
  · cases h
  rename_i rawDescription hrd
  split at h
  · cases h
  rename_i d hd
  split at h
  · cases h
  rename_i category hcat
  split at h
  · cases h
  rename_i rawPrice hrp
  split at h
  · cases h
  rename_i q hq
  split at h
  · cases h
  rename_i rawPrep hrt
  split at h
  · cases h
  rename_i t ht
  split at h
  · cases h
  rename_i rawIngredients hri
  split at h
  · cases h
  rename_i ing hing
  split at h
  · cases h
  rename_i cal hcal
  have hrec := (Except.ok.inj h).symm
  subst hrec
  obtain ⟨hn1, hn2, hn3, hn4⟩ := checkName_ok hn
  obtain ⟨hq1, hq2, hq3, hq4, hq5⟩ := checkPrice_ok hq
  subst hn4 hq5
  exact ⟨⟨rawName, requireField_ok hrn, hn1, hn2, hn3, rfl⟩,
    requireField_ok hrp, hq1, hq2, hq3, hq4⟩

theorem parse_ok_stripped {p : FoodItemPayload} {c : FoodItemCreate}
    (h : parseFoodItemCreate p = .ok c) : pyStrip c.name = c.name := by
  obtain ⟨⟨raw, _, _, _, _, hr⟩, _⟩ := parseFoodItemCreate_ok h
  rw [hr, pyStrip_idem]

theorem parse_then_revalidate {p : FoodItemPayload} {c c2 : FoodItemCreate}
    (hp : parseFoodItemCreate p = .ok c) (hr : revalidate c = .ok c2) : c2 = c :=
  revalidate_ok_eq (parse_ok_stripped hp) hr

theorem dbInsert_mem {α : Type} {db : List (Nat × α)} {k : Nat} {v : α} {e : Nat × α}
    (h : e ∈ dbInsert db k v) : e ∈ db ∨ e = (k, v) := by
  unfold dbInsert at h
  split at h
  · obtain ⟨x, hx, hfx⟩ := List.mem_map.mp h
    by_cases hk : x.1 == k
    · right; rw [← hfx]; simp [hk]
    · left; rw [← hfx]; simp only [hk]; simpa using hx
  · rcases List.mem_append.mp h with h1 | h1
    · left; exact h1
    · right; simpa using h1

theorem find_map_replace {α : Type} {db : List (Nat × α)} {k : Nat} {v : α}
    (hmem : db.any (fun e => e.1 == k) = true) :
    (db.map (fun e => if e.1 == k then (k, v) else e)).find? (fun e => e.1 == k)
      = some (k, v) := by
  induction db with
  | nil => simp at hmem
  | cons a t ih =>
      simp only [List.map_cons]
      by_cases hak : (a.1 == k) = true
      · rw [if_pos hak]
        exact List.find?_cons_of_pos _ (by simp)
      · rw [if_neg hak]
        have hf : (a.1 == k) = false := by simpa using hak
        simp only [List.find?_cons, hf]
        apply ih
        simp only [List.any_cons, Bool.or_eq_true] at hmem
        exact hmem.resolve_left hak

theorem find_append_fresh {α : Type} {db : List (Nat × α)} {k : Nat} {v : α}
    (hmem : db.any (fun e => e.1 == k) = false) :
    (db ++ [(k, v)]).find? (fun e => e.1 == k) = some (k, v) := by
  induction db with
  | nil => simp
  | cons a t ih =>
      simp only [List.any_cons, Bool.or_eq_false_iff] at hmem
      rw [List.cons_append, List.find?_cons_of_neg _ (by simpa using hmem.1)]
      exact ih hmem.2

theorem dbLookup_dbInsert_self {α : Type} (db : List (Nat × α)) (k : Nat) (v : α) :
    dbLookup (dbInsert db k v) k = some v := by
  unfold dbLookup dbInsert dbMem
  by_cases hmem : db.any (fun e => e.1 == k)
  · rw [if_pos hmem, find_map_replace hmem]
  · rw [if_neg hmem, find_append_fresh (Bool.of_not_eq_true hmem)]

theorem menuStep_inv {s : MenuState} (r : MenuRequest) (h : MenuInv s.menu_db) :
    MenuInv ((menuStep s r).1).menu_db := by
  cases r with
  | listAll => exact h
  | get id => exact h
  | byCategory c => exact h
  | delete id =>
      simp only [menuStep, delete_menu_item]
      split
      · intro e he
        exact h e (List.mem_filter.mp he).1
      · exact h
  | update id p =>
      simp only [menuStep, update_menu_item]
      split
      · exact h
      · simp only [update_menu_item_handler]
        split
        · exact h
        · exact h
  | create p =>
      cases hp : parseFoodItemCreate p with
      | error e => simp only [menuStep, add_menu_item, hp]; exact h
      | ok c =>
          cases hr : revalidate c with
          | error e =>
              simp only [menuStep, add_menu_item, add_item_to_db, hp, hr]
              exact h
          | ok c2 =>
              simp only [menuStep, add_menu_item, add_item_to_db, hp, hr]
              intro e he
              rcases dbInsert_mem he with hold | hnew
              · exact h e hold
              · rw [hnew]
                show revalidate c2 = .ok c2
                have hc2 : c2 = c := parse_then_revalidate hp hr
                rw [hc2] at hr ⊢
                exact hr

theorem menuRun_inv {s : MenuState} (reqs : List MenuRequest) (h : MenuInv s.menu_db) :
    MenuInv ((menuRun s reqs).1).menu_db := by
  induction reqs generalizing s with
  | nil => exact h
  | cons r rs ih =>
      simp only [menuRun]
      exact ih (menuStep_inv r h)

theorem menuStep2_inv {s : MenuState2} (r : MenuRequest) (h : MenuInv s.menu_db) :
    MenuInv ((menuStep2 s r).1).menu_db := by
  cases r with
  | listAll => exact h
  | get id => exact h
  | byCategory c => exact h
  | delete id =>
      simp only [menuStep2, delete_menu_item2]
      split
      · intro e he
        exact h e (List.mem_filter.mp he).1
      · exact h
  | update id p =>
      simp only [menuStep2, update_menu_item2]
      split
      · exact h
      · split
        · exact h
        · exact h
  | create p =>
      cases hp : parseFoodItemCreate p with
      | error e => simp only [menuStep2, add_menu_item2, hp]; exact h
      | ok c =>
          cases hr : revalidate c with
          | error e =>
              simp only [menuStep2, add_menu_item2, add_food_item_to_db, hp, hr]
              exact h
          | ok c2 =>
              simp only [menuStep2, add_menu_item2, add_food_item_to_db, hp, hr]
              intro e he
              rcases dbInsert_mem he with hold | hnew
              · exact h e hold
              · rw [hnew]
                show revalidate c2 = .ok c2
                have hc2 : c2 = c := parse_then_revalidate hp hr
                rw [hc2] at hr ⊢
                exact hr

theorem menuRun2_inv {s : MenuState2} (reqs : List MenuRequest) (h : MenuInv s.menu_db) :
    MenuInv ((menuRun2 s reqs).1).menu_db := by
  induction reqs generalizing s with
  | nil => exact h
  | cons r rs ih =>
      simp only [menuRun2]
      exact ih (menuStep2_inv r h)

theorem itemValid_name {it : FoodItem} (h : ItemValid it) :
    3 ≤ (pyStrip it.name).length ∧ (pyStrip it.name).length ≤ 100 ∧
    (pyStrip it.name).data.all isNameChar = true := by
  obtain ⟨heq, h3, h100, hmatch, _⟩ := revalidate_ok h
  have hname : pyStrip it.name = it.name :=
    (congrArg FoodItemCreate.name heq).symm
  rw [hname]
  refine ⟨h3, h100, ?_⟩
  have hb := hmatch
  simp only [nameMatches, Bool.and_eq_true] at hb
  exact hb.2

theorem menuStep_equiv {s1 : MenuState} {s2 : MenuState2}
    (hdb : s1.menu_db = s2.menu_db) (hid : s1.last_item_id + 1 = s2.next_menu_id)
    (r : MenuRequest) (hr : reqSafe r) :
    (menuStep s1 r).2 = (menuStep2 s2 r).2 ∧
    ((menuStep s1 r).1).menu_db = ((menuStep2 s2 r).1).menu_db ∧
    ((menuStep s1 r).1).last_item_id + 1 = ((menuStep2 s2 r).1).next_menu_id := by
  obtain ⟨db1, l1⟩ := s1
  obtain ⟨db2, n2⟩ := s2
  simp only at hdb hid
  subst hdb
  subst hid
  cases r with
  | listAll => refine ⟨?_, ?_, ?_⟩ <;> first | rfl | trivial
  | get id => refine ⟨?_, ?_, ?_⟩ <;> first | rfl | trivial
  | byCategory c => refine ⟨?_, ?_, ?_⟩ <;> first | rfl | trivial
  | delete id =>
      by_cases hmem : dbMem db1 id = true
      · simp only [menuStep, menuStep2, delete_menu_item, delete_menu_item2,
          if_pos hmem]
        refine ⟨?_, ?_, ?_⟩ <;> first | rfl | trivial
      · simp only [menuStep, menuStep2, delete_menu_item, delete_menu_item2,
          if_neg hmem]
        refine ⟨?_, ?_, ?_⟩ <;> first | rfl | trivial
  | update id p =>
      cases hp : parseFoodItemCreate p with
      | error e =>
          simp only [menuStep, menuStep2, update_menu_item, update_menu_item2, hp]
          refine ⟨?_, ?_, ?_⟩ <;> first | rfl | trivial
      | ok c =>
          simp only [menuStep, menuStep2, update_menu_item, update_menu_item2,
            update_menu_item_handler, hp]
          cases hl : dbLookup db1 id with
          | none => simp only [hl]; refine ⟨?_, ?_, ?_⟩ <;> first | rfl | trivial
          | some it => simp only [hl]; refine ⟨?_, ?_, ?_⟩ <;> first | rfl | trivial
  | create p =>
      cases hp : parseFoodItemCreate p with
      | error e =>
          simp only [menuStep, menuStep2, add_menu_item, add_menu_item2, hp]
          refine ⟨?_, ?_, ?_⟩ <;> first | rfl | trivial
      | ok c =>
          obtain ⟨c2, hc2⟩ := hr c hp
          simp only [menuStep, menuStep2, add_menu_item, add_menu_item2,
            add_item_to_db, add_food_item_to_db, hp, hc2]
          refine ⟨?_, ?_, ?_⟩ <;> first | rfl | trivial

theorem menuRun_equiv {s1 : MenuState} {s2 : MenuState2}
    (hdb : s1.menu_db = s2.menu_db) (hid : s1.last_item_id + 1 = s2.next_menu_id)
    (reqs : List MenuRequest) (hsafe : ∀ r ∈ reqs, reqSafe r) :
    (menuRun s1 reqs).2 = (menuRun2 s2 reqs).2 ∧
    ((menuRun s1 reqs).1).menu_db = ((menuRun2 s2 reqs).1).menu_db ∧
    ((menuRun s1 reqs).1).last_item_id + 1 = ((menuRun2 s2 reqs).1).next_menu_id := by
  induction reqs generalizing s1 s2 with
  | nil => exact ⟨rfl, hdb, hid⟩
  | cons r rs ih =>
      obtain ⟨hresp, hdb1, hid1⟩ := menuStep_equiv hdb hid r (hsafe r (by simp))
      obtain ⟨hresps, hdb2, hid2⟩ :=
        ih hdb1 hid1 (fun x hx => hsafe x (List.mem_cons_of_mem r hx))
      simp only [menuRun, menuRun2]
      exact ⟨by rw [hresp, hresps], hdb2, hid2⟩

theorem menuStep_last_le (s : MenuState) (r : MenuRequest) :
    s.last_item_id ≤ ((menuStep s r).1).last_item_id := by
  cases r with
  | listAll => exact le_rfl
  | get id => exact le_rfl
  | byCategory c => exact le_rfl
  | delete id =>
      simp only [menuStep, delete_menu_item]
      split
      · exact le_rfl
      · exact le_rfl
  | update id p =>
      simp only [menuStep, update_menu_item]
      split
      · exact le_rfl
      · simp only [update_menu_item_handler]
        split
        · exact le_rfl
        · exact le_rfl
  | create p =>
      cases hp : parseFoodItemCreate p with
      | error e => simp only [menuStep, add_menu_item, hp]; exact le_rfl
      | ok c =>
          cases hr : revalidate c with
          | error e =>
              simp only [menuStep, add_menu_item, add_item_to_db, hp, hr]
              exact Nat.le_succ _
          | ok c2 =>
              simp only [menuStep, add_menu_item, add_item_to_db, hp, hr]
              exact Nat.le_succ _

theorem createMarker_eq {s : MenuState} {r : MenuRequest} {i : Nat}
    (h : i ∈ createMarker r (menuStep s r).2) :
    i = s.last_item_id + 1 ∧
    ((menuStep s r).1).last_item_id = s.last_item_id + 1 := by
  cases r with
  | listAll => simp [createMarker] at h
  | get id => simp [createMarker] at h
  | byCategory c => simp [createMarker] at h
  | delete id => simp [createMarker] at h
  | update id p => simp [createMarker] at h
  | create p =>
      cases hp : parseFoodItemCreate p with
      | error e => simp [createMarker, menuStep, add_menu_item, hp] at h
      | ok c =>
          cases hr : revalidate c with
          | error e =>
              simp [createMarker, menuStep, add_menu_item, add_item_to_db, hp, hr] at h
          | ok c2 =>
              simp only [createMarker, menuStep, add_menu_item, add_item_to_db,
                hp, hr, List.mem_singleton] at h
              refine ⟨h, ?_⟩
              simp only [menuStep, add_menu_item, add_item_to_db, hp, hr]

theorem createdIds_bound (s : MenuState) (reqs : List MenuRequest) :
    ∀ i ∈ createdIds s reqs, s.last_item_id < i := by
  induction reqs generalizing s with
  | nil => simp [createdIds]
  | cons r rs ih =>
      intro i hi
      simp only [createdIds] at hi
      rcases List.mem_append.mp hi with h1 | h1
      · obtain ⟨heq, _⟩ := createMarker_eq h1
        omega
      · have h2 := ih (menuStep s r).1 i h1
        have h3 := menuStep_last_le s r
        omega

theorem createdIds_chain (s : MenuState) (reqs : List MenuRequest) :
    List.Chain' (fun a b => a < b) (createdIds s reqs) := by
  induction reqs generalizing s with
  | nil => simp [createdIds]
  | cons r rs ih =>
      simp only [createdIds]
      rcases hm : createMarker r (menuStep s r).2 with _ | ⟨a, rest⟩
      · simpa using ih (menuStep s r).1
      · have ha : a ∈ createMarker r (menuStep s r).2 := by
          rw [hm]; exact List.mem_cons_self a rest
        obtain ⟨ha1, hst⟩ := createMarker_eq ha
        have hrest : rest = [] := by
          cases r with
          | listAll => simp [createMarker] at hm
          | get id => simp [createMarker] at hm
          | byCategory c => simp [createMarker] at hm
          | delete id => simp [createMarker] at hm
          | update id p => simp [createMarker] at hm
          | create p =>
              cases hresp : (menuStep s (MenuRequest.create p)).2 <;>
                simp [createMarker, hresp] at hm <;> tauto
        subst hrest
        rw [List.cons_append, List.nil_append]
        refine List.chain'_cons'.mpr ⟨?_, ih (menuStep s r).1⟩
        intro b hb
        have hbmem := List.mem_of_mem_head? hb
        have hbd := createdIds_bound (menuStep s r).1 rs b hbmem
        omega

theorem menuRun_last_le (s : MenuState) (reqs : List MenuRequest) :
    s.last_item_id ≤ ((menuRun s reqs).1).last_item_id := by
  induction reqs generalizing s with
  | nil => exact le_rfl
  | cons r rs ih =>
      simp only [menuRun]
      exact le_trans (menuStep_last_le s r) (ih (menuStep s r).1)

theorem menuStep2_next_le (s : MenuState2) (r : MenuRequest) :
    s.next_menu_id ≤ ((menuStep2 s r).1).next_menu_id := by
  cases r with
  | listAll => exact le_rfl
  | get id => exact le_rfl
  | byCategory c => exact le_rfl
  | delete id =>
      simp only [menuStep2, delete_menu_item2]
      split
      · exact le_rfl
      · exact le_rfl
  | update id p =>
      simp only [menuStep2, update_menu_item2]
      split
      · exact le_rfl
      · split
        · exact le_rfl
        · exact le_rfl
  | create p =>
      cases hp : parseFoodItemCreate p with
      | error e => simp only [menuStep2, add_menu_item2, hp]; exact le_rfl
      | ok c =>
          cases hr : revalidate c with
          | error e =>
              simp only [menuStep2, add_menu_item2, add_food_item_to_db, hp, hr]
              exact le_rfl
          | ok c2 =>
              simp only [menuStep2, add_menu_item2, add_food_item_to_db, hp, hr]
              exact Nat.le_succ _

theorem createMarker2_eq {s : MenuState2} {r : MenuRequest} {i : Nat}
    (h : i ∈ createMarker r (menuStep2 s r).2) :
    i = s.next_menu_id ∧
    s.next_menu_id ≤ ((menuStep2 s r).1).next_menu_id := by
  refine ⟨?_, menuStep2_next_le s r⟩
  cases r with
  | listAll => simp [createMarker] at h
  | get id => simp [createMarker] at h
  | byCategory c => simp [createMarker] at h
  | delete id => simp [createMarker] at h
  | update id p => simp [createMarker] at h
  | create p =>
      cases hp : parseFoodItemCreate p with
      | error e => simp [createMarker, menuStep2, add_menu_item2, hp] at h
      | ok c =>
          cases hr : revalidate c with
          | error e =>
              simp [createMarker, menuStep2, add_menu_item2, add_food_item_to_db,
                hp, hr] at h
          | ok c2 =>
              simp only [createMarker, menuStep2, add_menu_item2,
                add_food_item_to_db, hp, hr, List.mem_singleton] at h
              exact h

theorem createMarker2_bump {s : MenuState2} {r : MenuRequest} {i : Nat}
    (h : i ∈ createMarker r (menuStep2 s r).2) :
    ((menuStep2 s r).1).next_menu_id = s.next_menu_id + 1 := by
  cases r with
  | listAll => simp [createMarker] at h
  | get id => simp [createMarker] at h
  | byCategory c => simp [createMarker] at h
  | delete id => simp [createMarker] at h
  | update id p => simp [createMarker] at h
  | create p =>
      cases hp : parseFoodItemCreate p with
      | error e => simp [createMarker, menuStep2, add_menu_item2, hp] at h
      | ok c =>
          cases hr : revalidate c with
          | error e =>
              simp [createMarker, menuStep2, add_menu_item2, add_food_item_to_db,
                hp, hr] at h
          | ok c2 =>
              simp only [menuStep2, add_menu_item2, add_food_item_to_db, hp, hr]

theorem createdIds2_bound (s : MenuState2) (reqs : List MenuRequest) :
    ∀ i ∈ createdIds2 s reqs, s.next_menu_id ≤ i := by
  induction reqs generalizing s with
  | nil => simp [createdIds2]
  | cons r rs ih =>
      intro i hi
      simp only [createdIds2] at hi
      rcases List.mem_append.mp hi with h1 | h1
      · obtain ⟨heq, _⟩ := createMarker2_eq h1
        omega
      · have h2 := ih (menuStep2 s r).1 i h1
        have h3 := menuStep2_next_le s r
        omega

theorem createdIds2_chain (s : MenuState2) (reqs : List MenuRequest) :
    List.Chain' (fun a b => a < b) (createdIds2 s reqs) := by
  induction reqs generalizing s with
  | nil => simp [createdIds2]
  | cons r rs ih =>
      simp only [createdIds2]
      rcases hm : createMarker r (menuStep2 s r).2 with _ | ⟨a, rest⟩
      · simpa using ih (menuStep2 s r).1
      · have ha : a ∈ createMarker r (menuStep2 s r).2 := by
          rw [hm]; exact List.mem_cons_self a rest
        obtain ⟨ha1, _⟩ := createMarker2_eq ha
        have hbump := createMarker2_bump ha
        have hrest : rest = [] := by
          cases r with
          | listAll => simp [createMarker] at hm
          | get id => simp [createMarker] at hm
          | byCategory c => simp [createMarker] at hm
          | delete id => simp [createMarker] at hm
          | update id p => simp [createMarker] at hm
          | create p =>
              cases hresp : (menuStep2 s (MenuRequest.create p)).2 <;>
                simp [createMarker, hresp] at hm <;> tauto
        subst hrest
        rw [List.cons_append, List.nil_append]
        refine List.chain'_cons'.mpr ⟨?_, ih (menuStep2 s r).1⟩
        intro b hb
        have hbmem := List.mem_of_mem_head? hb
        have hbd := createdIds2_bound (menuStep2 s r).1 rs b hbmem
        omega

theorem menuRun2_next_le (s : MenuState2) (reqs : List MenuRequest) :
    s.next_menu_id ≤ ((menuRun2 s reqs).1).next_menu_id := by
  induction reqs generalizing s with
  | nil => exact le_rfl
  | cons r rs ih =>
      simp only [menuRun2]
      exact le_trans (menuStep2_next_le s r) (ih (menuStep2 s r).1)

theorem validateCustomer_ok {c c2 : Customer} (h : validateCustomer c = .ok c2) :
    c2 = c := by
  unfold validateCustomer at h
  split_ifs at h <;>
    first
      | exact (Except.ok.inj h).symm
      | cases h

theorem validateOrderItem_ok {it it2 : OrderItem} (h : validateOrderItem it = .ok it2) :
    it2 = it := by
  unfold validateOrderItem at h
  split_ifs at h <;>
    first
      | exact (Except.ok.inj h).symm
      | cases h

theorem validateItems_ok {l l2 : List OrderItem} (h : validateItems l = .ok l2) :
    l2 = l := by
  induction l generalizing l2 with
  | nil =>
      simp only [validateItems] at h
      exact (Except.ok.inj h).symm
  | cons it rest ih =>
      simp only [validateItems] at h
      split at h
      · cases h
      rename_i v hv
      split at h
      · cases h
      rename_i vs hvs
      rw [(Except.ok.inj h).symm, validateOrderItem_ok hv, ih hvs]

theorem parseOrderCreate_ok {oc oc2 : OrderCreate} (h : parseOrderCreate oc = .ok oc2) :
    oc2 = oc ∧ oc.items ≠ [] := by
  unfold parseOrderCreate at h
  split at h
  · cases h
  rename_i c hc
  by_cases he : oc.items.isEmpty = true
  · rw [if_pos he] at h; cases h
  rw [if_neg he] at h
  split at h
  · cases h
  rename_i its hits
  refine ⟨?_, by simpa using he⟩
  rw [(Except.ok.inj h).symm, validateCustomer_ok hc, validateItems_ok hits]

theorem decimalPlaces2_iff (q : ℚ) :
    decimalPlaces2 q = true ↔ ∃ n : ℤ, q = (n : ℚ) / 100 := by
  unfold decimalPlaces2
  rw [beq_iff_eq]
  constructor
  · intro h
    obtain ⟨k, hk⟩ := Nat.dvd_of_mod_eq_zero h
    have hden : (q.den : ℚ) ≠ 0 := by
      exact_mod_cast q.den_nz
    have hknz : k ≠ 0 := by
      rintro rfl
      simp at hk
    have hkq : (k : ℚ) ≠ 0 := by exact_mod_cast hknz
    refine ⟨q.num * k, ?_⟩
    have h100 : (100 : ℚ) = (q.den : ℚ) * (k : ℚ) := by exact_mod_cast hk
    rw [eq_div_iff (by norm_num : (100 : ℚ) ≠ 0), h100]
    have hq : q * (q.den : ℚ) = (q.num : ℚ) := by
      nth_rewrite 1 [← Rat.num_div_den q]
      exact div_mul_cancel₀ _ hden
    push_cast
    rw [← mul_assoc, hq]
  · rintro ⟨n, rfl⟩
    apply Nat.mod_eq_zero_of_dvd
    have h1 : ((n : ℚ) / 100) = Rat.divInt n 100 := by
      rw [Rat.divInt_eq_div]
      norm_num
    rw [h1]
    exact_mod_cast Rat.den_dvd n 100

theorem reqSafe_margherita : reqSafe (MenuRequest.create margheritaPayload) := by
  intro c hc
  have hparse : parseFoodItemCreate margheritaPayload = .ok margheritaCreate := by rfl
  rw [hparse] at hc
  rw [← Except.ok.inj hc]
  exact ⟨margheritaCreate, by rfl⟩

/-! ### The claims -/

/-- C1 (corrected): an update request whose submitted payload contains
only the `price` field never reaches the stored item: `FoodItemCreate`
declares `name`, `description`, `category`, `price`,
`preparation_time` and `ingredients` as required, so body validation
fails with Invalid-Input (missing required field) before the handler
runs, and the menu mapping — including item `id` and every one of its
fields — is exactly as before the request, for any state, any id and
any submitted price. -/
theorem c1_price_only_update_rejected (s : MenuState) (id : Nat) (q : ℚ) :
    update_menu_item s id (priceOnlyPayload q) =
      (s, .validationError "name: field required") := by
  rfl

/-- C1 witness: the rejection at a concrete state, id and price. -/
theorem c1_price_only_update_rejected_witness :
    update_menu_item exState 2 (priceOnlyPayload 5) =
      (exState, .validationError "name: field required") :=
  c1_price_only_update_rejected exState 2 5

/-- C1 counterexample: at the concrete stored state holding the
Margherita item under id 1, an update of id 1 submitting only a valid
in-band price (20.00) does not succeed (no item response), refuting the
claim that such an update succeeds; the state is unchanged. -/
theorem c1_counterexample :
    (update_menu_item exState 1 (priceOnlyPayload 20)).2.isItem = false ∧
    (update_menu_item exState 1 (priceOnlyPayload 20)).1 = exState :=
  ⟨rfl, rfl⟩

/-- C2 (confirmed): every item in the menu mapping of either service —
after seeding and across any sequence of requests — is valid as stored;
in particular its name trims to itself with 3 to 100 characters, all
letters or whitespace, and the name stored by an accepted creation is
exactly the trimmed payload name. -/
theorem c2_stored_name_invariant :
    MenuInv seedState1.menu_db ∧
    MenuInv seedState2.menu_db ∧
    (∀ (s : MenuState) (reqs : List MenuRequest),
      MenuInv s.menu_db → MenuInv ((menuRun s reqs).1).menu_db) ∧
    (∀ (s : MenuState2) (reqs : List MenuRequest),
      MenuInv s.menu_db → MenuInv ((menuRun2 s reqs).1).menu_db) ∧
    (∀ db, MenuInv db → ∀ e ∈ db,
      3 ≤ (pyStrip e.2.name).length ∧ (pyStrip e.2.name).length ≤ 100 ∧
      (pyStrip e.2.name).data.all isNameChar = true) ∧
    (∀ (s : MenuState) (p : FoodItemPayload) (raw : String) (s2 : MenuState)
      (it : FoodItem), p.name = some raw →
      add_menu_item s p = (s2, .ok it) → it.name = pyStrip raw) := by
  have hempty1 : MenuInv ([] : List (Nat × FoodItem)) :=
    fun e he => absurd he (List.not_mem_nil e)
  refine ⟨menuRun_inv _ hempty1, menuRun2_inv _ hempty1,
    fun s reqs h => menuRun_inv reqs h,
    fun s reqs h => menuRun2_inv reqs h,
    fun db hdb e he => itemValid_name (hdb e he), ?_⟩
  intro s p raw s2 it hname hadd
  cases hp : parseFoodItemCreate p with
  | error e => simp [add_menu_item, hp] at hadd
  | ok c =>
      cases hr : revalidate c with
      | error e => simp [add_menu_item, add_item_to_db, hp, hr] at hadd
      | ok c2 =>
          simp only [add_menu_item, add_item_to_db, hp, hr, Prod.mk.injEq,
            MenuResponse.ok.injEq] at hadd
          obtain ⟨-, hit⟩ := hadd
          have hcc : c2 = c := parse_then_revalidate hp hr
          obtain ⟨⟨raw2, hraw2, -, -, -, hcn⟩, -⟩ := parseFoodItemCreate_ok hp
          rw [hname] at hraw2
          have hraw : raw2 = raw := (Option.some.inj hraw2.symm)
          subst hraw
          rw [← hit]
          show c2.name = pyStrip raw2
          rw [hcc, hcn]

/-- C2 witness: the invariant holds of the seeded menu-only store and
is preserved by a concrete creation request. -/
theorem c2_witness :
    MenuInv ((menuRun seedState1 [MenuRequest.create margheritaPayload]).1).menu_db :=
  c2_stored_name_invariant.2.2.1 seedState1 [MenuRequest.create margheritaPayload]
    c2_stored_name_invariant.1

/-- C3 (confirmed): for every order, `total_amount` is the sum over its
lines of quantity times unit price, `total_amount_with_delivery` adds
exactly 2.99, `total_items_count` is the number of lines and
`total_quantity` the sum of quantities; the demonstration order with
lines (1, 15.99) and (2, 12.50) yields 40.99, 43.98, 2 and 3. -/
theorem c3_order_totals :
    (∀ o : Order,
      o.total_amount = (o.items.map (fun it => (it.quantity : ℚ) * it.unit_price)).sum ∧
      o.total_amount_with_delivery = o.total_amount + mkRat 299 100 ∧
      o.total_items_count = o.items.length ∧
      o.total_quantity = (o.items.map OrderItem.quantity).sum) ∧
    aliceOrder.total_amount = mkRat 4099 100 ∧
    aliceOrder.total_amount_with_delivery = mkRat 4398 100 ∧
    aliceOrder.total_items_count = 2 ∧
    aliceOrder.total_quantity = 3 := by
  refine ⟨fun o => ⟨rfl, rfl, rfl, rfl⟩, ?_, ?_, rfl, rfl⟩
  · norm_num [aliceOrder, Order.total_amount, OrderItem.item_total, Rat.mkRat_eq_div]
  · norm_num [aliceOrder, Order.total_amount_with_delivery, Order.total_amount,
      OrderItem.item_total, Rat.mkRat_eq_div]

/-- C3 witness: the defining equations instantiated at the concrete
demonstration order. -/
theorem c3_order_totals_witness :
    aliceOrder.total_amount =
      (aliceOrder.items.map (fun it => (it.quantity : ℚ) * it.unit_price)).sum ∧
    aliceOrder.total_amount_with_delivery = aliceOrder.total_amount + mkRat 299 100 ∧
    aliceOrder.total_items_count = aliceOrder.items.length ∧
    aliceOrder.total_quantity = (aliceOrder.items.map OrderItem.quantity).sum :=
  c3_order_totals.1 aliceOrder

/-- C4 (confirmed): any payload accepted by `FoodItemCreate` validation
has a submitted price inside the inclusive band from 1.00 to 100.00 and
satisfying the structural rule (positive, at most 2 decimal places) —
so violating either rule rejects the payload; concretely, the otherwise
valid Tiny Snack payload fails with the price-band Invalid-Input
message at 0.50 and at 100.01, and creation succeeds at 100.00. -/
theorem c4_price_band {p : FoodItemPayload} {c : FoodItemCreate}
    (h : parseFoodItemCreate p = .ok c) (s : MenuState) :
    (1 ≤ c.price ∧ c.price ≤ 100 ∧ 0 < c.price ∧ decimalPlaces2 c.price = true ∧
      p.price = some c.price) ∧
    parseFoodItemCreate (tinySnackPayload (mkRat 1 2)) = .error priceBandMsg ∧
    parseFoodItemCreate (tinySnackPayload (mkRat 10001 100)) = .error priceBandMsg ∧
    (add_menu_item s (tinySnackPayload 100)).2 =
      .ok ⟨tinySnackCreate 100, s.last_item_id + 1⟩ := by
  obtain ⟨-, hps, h0, hdp, h1, h100⟩ := parseFoodItemCreate_ok h
  refine ⟨⟨h1, h100, h0, hdp, hps⟩, by rfl, by rfl, ?_⟩
  have hp2 : parseFoodItemCreate (tinySnackPayload 100) = .ok (tinySnackCreate 100) := by
    rfl
  have hr2 : revalidate (tinySnackCreate 100) = .ok (tinySnackCreate 100) := by rfl
  simp only [add_menu_item, add_item_to_db, hp2, hr2]

/-- C4 witness: instantiated at the accepted Margherita payload and the
one-item store. -/
theorem c4_price_band_witness :
    (1 ≤ margheritaCreate.price ∧ margheritaCreate.price ≤ 100 ∧
      0 < margheritaCreate.price ∧ decimalPlaces2 margheritaCreate.price = true ∧
      margheritaPayload.price = some margheritaCreate.price) ∧
    parseFoodItemCreate (tinySnackPayload (mkRat 1 2)) = .error priceBandMsg ∧
    parseFoodItemCreate (tinySnackPayload (mkRat 10001 100)) = .error priceBandMsg ∧
    (add_menu_item exState (tinySnackPayload 100)).2 =
      .ok ⟨tinySnackCreate 100, exState.last_item_id + 1⟩ :=
  c4_price_band (by rfl) exState

/-- C5 (confirmed): any structurally valid `OrderCreate` payload is
accepted: the order is stored as pending under the next order id with
the counter advanced, the menu part of the state is untouched, the
response does not depend on the menu contents, and the payload
referencing the nonexistent menu id 999 validates successfully. -/
theorem c5_order_create_unchecked {oc oc2 : OrderCreate}
    (h : parseOrderCreate oc = .ok oc2) (s : OrderServiceState) (m : MenuState2) :
    create_order_endpoint s oc =
      ({ s with
         orders_db := dbInsert s.orders_db s.next_order_id ⟨oc, s.next_order_id, .pending⟩
         next_order_id := s.next_order_id + 1 },
       .ok ⟨oc, s.next_order_id, .pending⟩) ∧
    (create_order_endpoint { s with menu := m } oc).2 =
      .ok ⟨oc, s.next_order_id, .pending⟩ ∧
    parseOrderCreate invalidMenuIdOrder = .ok invalidMenuIdOrder := by
  obtain ⟨hoc, -⟩ := parseOrderCreate_ok h
  subst hoc
  refine ⟨?_, ?_, by rfl⟩
  · simp only [create_order_endpoint, h, create_order]
  · simp only [create_order_endpoint, h, create_order]

/-- C5 witness: the order referencing menu id 999 is created as pending
order 1 from the startup state, whose menu does not contain 999. -/
theorem c5_witness :
    create_order_endpoint emptyOrderService invalidMenuIdOrder =
      ({ emptyOrderService with
         orders_db := dbInsert emptyOrderService.orders_db
           emptyOrderService.next_order_id
           ⟨invalidMenuIdOrder, emptyOrderService.next_order_id, .pending⟩
         next_order_id := emptyOrderService.next_order_id + 1 },
       .ok ⟨invalidMenuIdOrder, emptyOrderService.next_order_id, .pending⟩) ∧
    (create_order_endpoint { emptyOrderService with menu := seedState2 }
        invalidMenuIdOrder).2 =
      .ok ⟨invalidMenuIdOrder, emptyOrderService.next_order_id, .pending⟩ ∧
    parseOrderCreate invalidMenuIdOrder = .ok invalidMenuIdOrder :=
  c5_order_create_unchecked (by rfl) emptyOrderService seedState2

/-- C6 (confirmed): each demonstration scenario exercising an
unimplemented business rule — spicy beverage, vegetarian item with 850
calories, beverage with preparation time 12, order line with
nonexistent menu id 999, order line with a mismatched unit price, order
line for the unavailable Seasonal Soup — constructs without a
validation error, so the demonstration endpoints report status FAIL for
every one of them. -/
theorem c6_demo_scenarios_fail :
    foodScenarioStatus spicyLemonadePayload = "FAIL" ∧
    foodScenarioStatus highCalVegPayload = "FAIL" ∧
    foodScenarioStatus longPrepBeveragePayload = "FAIL" ∧
    orderScenarioStatus invalidMenuIdOrder = "FAIL" ∧
    orderScenarioStatus priceMismatchOrder = "FAIL" ∧
    orderScenarioStatus unavailableItemOrder = "FAIL" :=
  ⟨rfl, rfl, rfl, rfl, rfl, rfl⟩

/-- C7 (code bug): for a parseable update body, an absent id yields
Not-Found with the store unchanged, as claimed; but for a present id
the handler always fails with the uncaught duplicate-id `TypeError`
(a server error, not the claimed Invalid-Input), because the merged
data dumped from the stored item already contains `id`; in every case
the stored state is exactly as before the request. -/
theorem c7_update_error_behavior (s : MenuState) (id : Nat) (p : FoodItemPayload)
    {c : FoodItemCreate} (hp : parseFoodItemCreate p = .ok c) :
    (dbLookup s.menu_db id = none →
      update_menu_item s id p = (s, .notFound "Food item not found")) ∧
    (∀ it, dbLookup s.menu_db id = some it →
      update_menu_item s id p = (s, .serverError duplicateIdTypeError)) ∧
    (update_menu_item s id p).1 = s := by
  refine ⟨?_, ?_, ?_⟩
  · intro hl
    simp only [update_menu_item, hp, update_menu_item_handler, hl]
  · intro it hl
    simp only [update_menu_item, hp, update_menu_item_handler, hl]
  · cases hq : parseFoodItemCreate p with
    | error e => simp only [update_menu_item, hq]
    | ok c2 =>
        simp only [update_menu_item, hq, update_menu_item_handler]
        cases hl : dbLookup s.menu_db id with
        | none => simp only [hl]
        | some it => simp only [hl]

/-- C7 witness: on the one-item store, updating the absent id 99 with
the full Margherita body is Not-Found, and updating the present id 1
with the same body raises the duplicate-id server error. -/
theorem c7_witness :
    update_menu_item exState 99 margheritaPayload =
      (exState, .notFound "Food item not found") ∧
    update_menu_item exState 1 margheritaPayload =
      (exState, .serverError duplicateIdTypeError) :=
  ⟨(c7_update_error_behavior exState 99 margheritaPayload (by rfl)).1 rfl,
   (c7_update_error_behavior exState 1 margheritaPayload (by rfl)).2.1
     ⟨margheritaCreate, 1⟩ rfl⟩

/-- C8 (confirmed): from any state, creating the Margherita Pizza
payload returns the validated record under the freshly assigned id, and
retrieving that id returns the identical record, whose computed
`price_category` is Mid-range and whose `dietary_info` is exactly the
singleton Vegetarian. -/
theorem c8_round_trip (s : MenuState) :
    (add_menu_item s margheritaPayload).2 =
      .ok ⟨margheritaCreate, s.last_item_id + 1⟩ ∧
    get_menu_item (add_menu_item s margheritaPayload).1 (s.last_item_id + 1) =
      .ok ⟨margheritaCreate, s.last_item_id + 1⟩ ∧
    margheritaCreate.price_category = "Mid-range" ∧
    margheritaCreate.dietary_info = ["Vegetarian"] := by
  have hp : parseFoodItemCreate margheritaPayload = .ok margheritaCreate := by rfl
  have hr : revalidate margheritaCreate = .ok margheritaCreate := by rfl
  refine ⟨?_, ?_, by decide, by decide⟩
  · simp only [add_menu_item, add_item_to_db, hp, hr]
  · simp only [add_menu_item, add_item_to_db, hp, hr, get_menu_item,
      dbLookup_dbInsert_self]

/-- C8 witness: the round trip instantiated at the one-item store. -/
theorem c8_round_trip_witness :
    (add_menu_item exState margheritaPayload).2 =
      .ok ⟨margheritaCreate, exState.last_item_id + 1⟩ ∧
    get_menu_item (add_menu_item exState margheritaPayload).1
        (exState.last_item_id + 1) =
      .ok ⟨margheritaCreate, exState.last_item_id + 1⟩ ∧
    margheritaCreate.price_category = "Mid-range" ∧
    margheritaCreate.dietary_info = ["Vegetarian"] :=
  c8_round_trip exState

/-- C9 (corrected): started from equal menu mappings with counters
positioned to assign the same next id, the two services produce the
same responses and menu states on any request sequence whose create
payloads, when accepted, also survive the `FoodItem` reconstruction;
the final two conjuncts exhibit the divergence mechanism outside that
restriction: on a create whose validated name trims below 3 characters
the menu-only service bumps its counter before the failure while the
order service does not. -/
theorem c9_menu_equiv_conditional (s1 : MenuState) (s2 : MenuState2)
    (hdb : s1.menu_db = s2.menu_db) (hid : s1.last_item_id + 1 = s2.next_menu_id)
    (reqs : List MenuRequest) (hsafe : ∀ r ∈ reqs, reqSafe r) :
    (menuRun s1 reqs).2 = (menuRun2 s2 reqs).2 ∧
    ((menuRun s1 reqs).1).menu_db = ((menuRun2 s2 reqs).1).menu_db ∧
    ((menuRun s1 reqs).1).last_item_id + 1 = ((menuRun2 s2 reqs).1).next_menu_id ∧
    (menuRun ⟨[], 0⟩ [MenuRequest.create badNamePayload]).1.last_item_id = 1 ∧
    (menuRun2 ⟨[], 1⟩ [MenuRequest.create badNamePayload]).1.next_menu_id = 1 := by
  obtain ⟨h1, h2, h3⟩ := menuRun_equiv hdb hid reqs hsafe
  exact ⟨h1, h2, h3, by rfl, by rfl⟩

/-- C9 counterexample: from equal (empty) menus and counters both about
to assign id 1, the request sequence consisting of a create whose name
trims too short followed by a valid create produces different response
lists in the two services (the second create returns id 2 in one and
id 1 in the other), refuting unconditional behavioral equivalence. -/
theorem c9_counterexample :
    (menuRun ⟨[], 0⟩
      [MenuRequest.create badNamePayload, MenuRequest.create margheritaPayload]).2 ≠
    (menuRun2 ⟨[], 1⟩
      [MenuRequest.create badNamePayload, MenuRequest.create margheritaPayload]).2 := by
  decide

/-- C9 witness: a concrete safe sequence — create, delete, create — on
which both services agree. -/
theorem c9_witness :
    (menuRun ⟨[], 0⟩ c9SafeReqs).2 = (menuRun2 ⟨[], 1⟩ c9SafeReqs).2 ∧
    ((menuRun ⟨[], 0⟩ c9SafeReqs).1).menu_db =
      ((menuRun2 ⟨[], 1⟩ c9SafeReqs).1).menu_db ∧
    ((menuRun ⟨[], 0⟩ c9SafeReqs).1).last_item_id + 1 =
      ((menuRun2 ⟨[], 1⟩ c9SafeReqs).1).next_menu_id ∧
    (menuRun ⟨[], 0⟩ [MenuRequest.create badNamePayload]).1.last_item_id = 1 ∧
    (menuRun2 ⟨[], 1⟩ [MenuRequest.create badNamePayload]).1.next_menu_id = 1 :=
  c9_menu_equiv_conditional ⟨[], 0⟩ ⟨[], 1⟩ rfl rfl c9SafeReqs (by
    intro r hr
    simp only [c9SafeReqs, List.mem_cons, List.not_mem_nil, or_false] at hr
    rcases hr with rfl | rfl | rfl
    · exact reqSafe_margherita
    · trivial
    · exact reqSafe_margherita)

/-- C10 (confirmed): every id assigned by a successful creation exceeds
the id counter as it stood at the start of the run (hence every id ever
assigned before), successively assigned ids are strictly increasing,
and no request — deletions included — ever decreases the counter, in
either service. -/
theorem c10_ids_never_reused (s : MenuState) (reqs : List MenuRequest)
    (s2 : MenuState2) (reqs2 : List MenuRequest) :
    (∀ i ∈ createdIds s reqs, s.last_item_id < i) ∧
    List.Chain' (fun a b => a < b) (createdIds s reqs) ∧
    s.last_item_id ≤ ((menuRun s reqs).1).last_item_id ∧
    (∀ i ∈ createdIds2 s2 reqs2, s2.next_menu_id ≤ i) ∧
    List.Chain' (fun a b => a < b) (createdIds2 s2 reqs2) ∧
    s2.next_menu_id ≤ ((menuRun2 s2 reqs2).1).next_menu_id :=
  ⟨createdIds_bound s reqs, createdIds_chain s reqs, menuRun_last_le s reqs,
   createdIds2_bound s2 reqs2, createdIds2_chain s2 reqs2,
   menuRun2_next_le s2 reqs2⟩

/-- C10 witness: on the create, delete, create sequence from a fresh
store, the id assigned after the deletion is fresh (the assigned ids
are 1 then 2, strictly increasing and above the initial counter). -/
theorem c10_witness :
    (0 < 1 ∧ 0 < 2) ∧
    List.Chain' (fun a b => a < b) (createdIds ⟨[], 0⟩ c10Reqs) ∧
    (1 ≤ 1 ∧ 1 ≤ 2) ∧
    List.Chain' (fun a b => a < b) (createdIds2 ⟨[], 1⟩ c10Reqs) :=
  ⟨⟨(c10_ids_never_reused ⟨[], 0⟩ c10Reqs ⟨[], 1⟩ c10Reqs).1 1 (by decide),
    (c10_ids_never_reused ⟨[], 0⟩ c10Reqs ⟨[], 1⟩ c10Reqs).1 2 (by decide)⟩,
   (c10_ids_never_reused ⟨[], 0⟩ c10Reqs ⟨[], 1⟩ c10Reqs).2.1,
   ⟨(c10_ids_never_reused ⟨[], 0⟩ c10Reqs ⟨[], 1⟩ c10Reqs).2.2.2.1 1 (by decide),
    (c10_ids_never_reused ⟨[], 0⟩ c10Reqs ⟨[], 1⟩ c10Reqs).2.2.2.1 2 (by decide)⟩,
   (c10_ids_never_reused ⟨[], 0⟩ c10Reqs ⟨[], 1⟩ c10Reqs).2.2.2.2.1⟩

end RestaurantChain
